import Mathlib

/-!
Shallow embedding of the maple music-request association / quota subsystem and
of the hotel-room default scope.

The repository ships the behavioural test suite
`src/lib/music-requests/user-music-requests-routes.spec.ts` and the model
`src/lib/room-reservation/models/hotel-room.model.ts`; the music-request
service and controller sources themselves are not part of the provided tree,
so the workflow definitions below are modelled from the specification
(sections 3, 4 and 7 of `spec.md`) and cross-checked against the behaviour
the test suite pins down.
-/

namespace Maple

/-- Modelled from the spec: `RequestedArtist` catalog row
{id, name, url (unique), imageUrl} (spec section 3); the service source
defining the Sequelize model is not under `src/`. -/
structure Artist where
  id : Nat
  name : String
  url : String
  imageUrl : Option String
deriving DecidableEq, Repr

/-- Modelled from the spec: `RequestedAlbum` catalog row
{id, name, url (unique), imageUrl, artistId (FK, required)} (spec section 3). -/
structure Album where
  id : Nat
  name : String
  url : String
  imageUrl : Option String
  artistId : Nat
deriving DecidableEq, Repr

/-- Modelled from the spec: `RequestedSong` catalog row
{id, name, url (unique), artistId (FK, required)} (spec section 3). -/
structure Song where
  id : Nat
  name : String
  url : String
  artistId : Nat
deriving DecidableEq, Repr

/-- Modelled from the spec: a join row {userId, artistId|albumId|songId}
of the `UserRequestedArtist` / `UserRequestedAlbum` / `UserRequestedSong`
tables (spec section 3). `targetId` is the catalog-entry id. -/
structure JoinRow where
  userId : Nat
  targetId : Nat
deriving DecidableEq, Repr

/-- Modelled from the spec: the relational entity store for the
music-request subsystem (spec section 2), with one id sequence per
catalog table as a SQL `SERIAL` column provides. -/
structure Store where
  artists : List Artist
  albums : List Album
  songs : List Song
  userArtists : List JoinRow
  userAlbums : List JoinRow
  userSongs : List JoinRow
  nextArtistId : Nat
  nextAlbumId : Nat
  nextSongId : Nat
deriving DecidableEq, Repr

/-- Modelled from the spec: artist payload {name, url, imageUrl?}, also the
nested artist sub-object of album/song submissions (spec section 4.1). A
missing url field is represented by the empty string, matching the
validation rule that the url must be present and non-empty. -/
structure ArtistPayload where
  name : String
  url : String
  imageUrl : Option String
deriving DecidableEq, Repr

/-- Modelled from the spec: album payload {name, url, imageUrl?, artist?}
(spec section 4.1). -/
structure AlbumPayload where
  name : String
  url : String
  imageUrl : Option String
  artist : Option ArtistPayload
deriving DecidableEq, Repr

/-- Modelled from the spec: song payload {name, url, artist?}
(spec sections 3 and 4.1). -/
structure SongPayload where
  name : String
  url : String
  artist : Option ArtistPayload
deriving DecidableEq, Repr

/-- Modelled from the spec: the error taxonomy of section 7. -/
inductive Fault where
  | validation
  | quota
  | notFound
  | conflict
deriving DecidableEq, Repr

/-- Modelled from the spec: the HTTP status the boundary collaborator maps
each fault to (spec section 7): ValidationError and quota are 400,
NotFoundError is 404, ConflictFault is surfaced as 500. -/
def httpStatus : Fault → Nat
  | Fault.validation => 400
  | Fault.quota => 400
  | Fault.notFound => 404
  | Fault.conflict => 500

/-- Count of join rows belonging to a user (spec section 4.4: the quota
checker is `count(userId, kind)`). -/
def countJoins (u : Nat) (rows : List JoinRow) : Nat :=
  (rows.filter (fun j => j.userId == u)).length

/-- Whether a (user, catalog-entry) join row exists. -/
def hasJoin (u cid : Nat) (rows : List JoinRow) : Bool :=
  rows.any (fun j => j.userId == u && j.targetId == cid)

/-- Number of join rows recorded for a given (user, catalog-entry) pair. -/
def countPair (u cid : Nat) (rows : List JoinRow) : Nat :=
  (rows.filter (fun j => j.userId == u && j.targetId == cid)).length

/-- Modelled from the spec: find-or-create of the artist catalog row keyed
by url (spec section 4.1 step 2); the service source is not under `src/`.
Returns the catalog row together with the store after the operation. -/
def findOrCreateArtist (s : Store) (p : ArtistPayload) : Artist × Store :=
  match s.artists.find? (fun a => a.url == p.url) with
  | some a => (a, s)
  | none =>
    let a : Artist := ⟨s.nextArtistId, p.name, p.url, p.imageUrl⟩
    (a, { s with artists := s.artists ++ [a], nextArtistId := s.nextArtistId + 1 })

/-- Modelled from the spec: steps 3 and 4 of the dedup-and-associate
workflow (spec section 4.1): quota check on the user's join rows of this
kind (per section 4.1 step 3), then creation of the join row, failing
with a conflict when the (user, catalog-entry) pair already exists. -/
def associate (maxReq u : Nat) (rows : List JoinRow) (cid : Nat) :
    Except Fault (List JoinRow) :=
  if maxReq ≤ countJoins u rows then Except.error Fault.quota
  else if hasJoin u cid rows then Except.error Fault.conflict
  else Except.ok (rows ++ [⟨u, cid⟩])

/-- Modelled from the spec: the dedup-and-associate workflow for
`POST /music-request-artists` (spec section 4.1): find-or-create the
catalog row by url, then quota check, then join-row creation; a duplicate
join row is a conflict. Returns the response together with the store
after whatever mutations happened before a failure. -/
def postArtist (maxReq u : Nat) (p : ArtistPayload) (s : Store) :
    Except Fault Artist × Store :=
  match findOrCreateArtist s p with
  | (a, s1) =>
    match associate maxReq u s1.userArtists a.id with
    | Except.error f => (Except.error f, s1)
    | Except.ok rows => (Except.ok a, { s1 with userArtists := rows })

/-- Look up an artist catalog row by id (used to nest the artist into
album/song representations). -/
def findArtistById (s : Store) (aid : Nat) : Option Artist :=
  s.artists.find? (fun a => a.id == aid)

/-- Modelled from the spec: validation of the artist sub-object of an
album/song payload (spec section 4.1 step 1): it must be present and
carry a non-empty url. -/
def validArtistSub : Option ArtistPayload → Bool
  | none => false
  | some ap => ap.url != ""

/-- Modelled from the spec: find-or-create of the album catalog row keyed
by url (spec section 4.1 step 2); a freshly created album references the
given artist id. -/
def findOrCreateAlbum (s : Store) (arId : Nat) (p : AlbumPayload) : Album × Store :=
  match s.albums.find? (fun b => b.url == p.url) with
  | some b => (b, s)
  | none =>
    let b : Album := ⟨s.nextAlbumId, p.name, p.url, p.imageUrl, arId⟩
    (b, { s with albums := s.albums ++ [b], nextAlbumId := s.nextAlbumId + 1 })

/-- Modelled from the spec: find-or-create of the song catalog row keyed
by url (spec section 4.1 step 2). -/
def findOrCreateSong (s : Store) (arId : Nat) (p : SongPayload) : Song × Store :=
  match s.songs.find? (fun b => b.url == p.url) with
  | some b => (b, s)
  | none =>
    let b : Song := ⟨s.nextSongId, p.name, p.url, arId⟩
    (b, { s with songs := s.songs ++ [b], nextSongId := s.nextSongId + 1 })

/-- Modelled from the spec: the dedup-and-associate workflow for
`POST /music-request-albums` (spec section 4.1): validate the artist
sub-object, find-or-create the nested artist and the album catalog rows
keyed by url, quota check, then join-row creation. The success value is
the album with its nested artist (spec section 4.1 step 5). -/
def postAlbum (maxReq u : Nat) (p : AlbumPayload) (s : Store) :
    Except Fault (Album × Option Artist) × Store :=
  match p.artist with
  | none => (Except.error Fault.validation, s)
  | some ap =>
    if ap.url = "" then (Except.error Fault.validation, s)
    else
      match findOrCreateArtist s ap with
      | (ar, s1) =>
        match findOrCreateAlbum s1 ar.id p with
        | (al, s2) =>
          match associate maxReq u s2.userAlbums al.id with
          | Except.error f => (Except.error f, s2)
          | Except.ok rows =>
            (Except.ok (al, findArtistById s2 al.artistId),
              { s2 with userAlbums := rows })

/-- Modelled from the spec: the dedup-and-associate workflow for
`POST /music-request-songs`, structured exactly like the album one
(spec section 4.1). -/
def postSong (maxReq u : Nat) (p : SongPayload) (s : Store) :
    Except Fault (Song × Option Artist) × Store :=
  match p.artist with
  | none => (Except.error Fault.validation, s)
  | some ap =>
    if ap.url = "" then (Except.error Fault.validation, s)
    else
      match findOrCreateArtist s ap with
      | (ar, s1) =>
        match findOrCreateSong s1 ar.id p with
        | (sg, s2) =>
          match associate maxReq u s2.userSongs sg.id with
          | Except.error f => (Except.error f, s2)
          | Except.ok rows =>
            (Except.ok (sg, findArtistById s2 sg.artistId),
              { s2 with userSongs := rows })

/-- Modelled from the spec: the disassociation workflow
(spec section 4.2): delete the join row for (currentUserId, catalogId)
if it exists, otherwise fail with not-found; the catalog tables are never
touched. Instantiated below for each of the three kinds. -/
def deleteAssoc (u cid : Nat) (rows : List JoinRow) :
    Except Fault Unit × List JoinRow :=
  if hasJoin u cid rows then
    (Except.ok (), rows.filter (fun j => !(j.userId == u && j.targetId == cid)))
  else
    (Except.error Fault.notFound, rows)

/-- Modelled from the spec: `DELETE /music-request-artists/:artistId`
(spec section 4.2). -/
def deleteArtistAssoc (u cid : Nat) (s : Store) : Except Fault Unit × Store :=
  let r := deleteAssoc u cid s.userArtists
  (r.1, { s with userArtists := r.2 })

/-- Modelled from the spec: `DELETE /music-request-albums/:albumId`
(spec section 4.2). -/
def deleteAlbumAssoc (u cid : Nat) (s : Store) : Except Fault Unit × Store :=
  let r := deleteAssoc u cid s.userAlbums
  (r.1, { s with userAlbums := r.2 })

/-- Modelled from the spec: `DELETE /music-request-songs/:songId`
(spec section 4.2). -/
def deleteSongAssoc (u cid : Nat) (s : Store) : Except Fault Unit × Store :=
  let r := deleteAssoc u cid s.userSongs
  (r.1, { s with userSongs := r.2 })

/-- Ordering relation used by the query workflow: catalog id ascending
(spec section 4.3). -/
def artistLe (a b : Artist) : Prop := a.id ≤ b.id

instance : DecidableRel artistLe := fun a b => Nat.decLe a.id b.id

instance : IsTotal Artist artistLe := ⟨fun a b => Nat.le_total a.id b.id⟩

instance : IsTrans Artist artistLe := ⟨fun _ _ _ h1 h2 => Nat.le_trans h1 h2⟩

/-- Ordering of albums by catalog id ascending. -/
def albumLe (a b : Album) : Prop := a.id ≤ b.id

instance : DecidableRel albumLe := fun a b => Nat.decLe a.id b.id

instance : IsTotal Album albumLe := ⟨fun a b => Nat.le_total a.id b.id⟩

instance : IsTrans Album albumLe := ⟨fun _ _ _ h1 h2 => Nat.le_trans h1 h2⟩

/-- Ordering of songs by catalog id ascending. -/
def songLe (a b : Song) : Prop := a.id ≤ b.id

instance : DecidableRel songLe := fun a b => Nat.decLe a.id b.id

instance : IsTotal Song songLe := ⟨fun a b => Nat.le_total a.id b.id⟩

instance : IsTrans Song songLe := ⟨fun _ _ _ h1 h2 => Nat.le_trans h1 h2⟩

/-- Modelled from the spec: `GET /music-request-artists`
(spec section 4.3): the artists associated with the user via the join
table, ordered by catalog id ascending. -/
def getArtists (u : Nat) (s : Store) : List Artist :=
  List.insertionSort artistLe
    (s.artists.filter (fun a => hasJoin u a.id s.userArtists))

/-- Modelled from the spec: `GET /music-request-albums`
(spec section 4.3): the albums associated with the user, ordered by
catalog id ascending, each with its nested artist. -/
def getAlbums (u : Nat) (s : Store) : List (Album × Option Artist) :=
  (List.insertionSort albumLe
    (s.albums.filter (fun b => hasJoin u b.id s.userAlbums))).map
    (fun b => (b, findArtistById s b.artistId))

/-- Modelled from the spec: `GET /music-request-songs`
(spec section 4.3). -/
def getSongs (u : Nat) (s : Store) : List (Song × Option Artist) :=
  (List.insertionSort songLe
    (s.songs.filter (fun b => hasJoin u b.id s.userSongs))).map
    (fun b => (b, findArtistById s b.artistId))

/-- Spec section 3 invariant: each catalog table is unique by url within
its type. -/
def UrlsNodup (s : Store) : Prop :=
  (s.artists.map Artist.url).Nodup ∧ (s.albums.map Album.url).Nodup ∧
    (s.songs.map Song.url).Nodup

instance (s : Store) : Decidable (UrlsNodup s) := by
  unfold UrlsNodup; infer_instance

/-- From `src/lib/room-reservation/models/hotel-room.model.ts`: the
`HotelRoom` Sequelize model with columns description, price and
maxPersonCount, plus the inherited integer primary key `id`. -/
structure HotelRoom where
  id : Nat
  description : String
  price : Int
  maxPersonCount : Nat
deriving DecidableEq, Repr

/-- Ordering of hotel rooms by id ascending. -/
def hotelRoomLe (a b : HotelRoom) : Prop := a.id ≤ b.id

instance : DecidableRel hotelRoomLe := fun a b => Nat.decLe a.id b.id

instance : IsTotal HotelRoom hotelRoomLe := ⟨fun a b => Nat.le_total a.id b.id⟩

instance : IsTrans HotelRoom hotelRoomLe := ⟨fun _ _ _ h1 h2 => Nat.le_trans h1 h2⟩

/-- From `src/lib/room-reservation/models/hotel-room.model.ts`: the
`@DefaultScope({order: [['id', 'ASC']]})` decorator makes every query of
the model return its rows ordered by id ascending; the scope is modelled
as the function it applies to the queried rows. -/
def hotelRoomDefaultScope (rows : List HotelRoom) : List HotelRoom :=
  List.insertionSort hotelRoomLe rows

/-- Fixture artist, matching the payload used throughout the test suite. -/
def wArtist : Artist := ⟨1, "artistName", "artistUrl", some "imageUrl"⟩

/-- Fixture album referencing the fixture artist. -/
def wAlbum : Album := ⟨1, "albumName", "albumUrl", some "albumImageUrl", 1⟩

/-- Fixture song referencing the fixture artist. -/
def wSong : Song := ⟨1, "songName", "songUrl", 1⟩

/-- Fixture artist payload, as sent by the test suite. -/
def wArtistP : ArtistPayload := ⟨"artistName", "artistUrl", some "imageUrl"⟩

/-- Fixture album payload with nested artist. -/
def wAlbumP : AlbumPayload := ⟨"albumName", "albumUrl", some "albumImageUrl", some wArtistP⟩

/-- Fixture song payload with nested artist. -/
def wSongP : SongPayload := ⟨"songName", "songUrl", some wArtistP⟩

/-- Fixture store: user 1 is associated to the fixture artist, album and
song, one join row of each kind. -/
def wStore : Store :=
  ⟨[wArtist], [wAlbum], [wSong], [⟨1, 1⟩], [⟨1, 1⟩], [⟨1, 1⟩], 2, 2, 2⟩

/-- Fixture store with catalog rows but no association for user 2. -/
def wStoreEmptyJoins : Store :=
  ⟨[wArtist], [wAlbum], [wSong], [], [], [], 2, 2, 2⟩

theorem find?_key_eq_some {α : Type} (key : α → String) (u : String) :
    ∀ (l : List α), (l.map key).Nodup → ∀ a, a ∈ l → key a = u →
      l.find? (fun x => key x == u) = some a := by
  intro l
  induction l with
  | nil => intro _ a ha; cases ha
  | cons x t ih =>
    intro hnd a ha hk
    rw [List.map_cons, List.nodup_cons] at hnd
    by_cases hx : key x = u
    · have hpx : (key x == u) = true := beq_iff_eq.mpr hx
      rw [List.find?_cons_of_pos (p := fun y => key y == u) t hpx]
      rcases List.mem_cons.mp ha with rfl | hmem
      · rfl
      · have hmm : key x ∈ List.map key t := by
          rw [hx, ← hk]; exact List.mem_map_of_mem key hmem
        exact absurd hmm hnd.1
    · have hpx : ¬((key x == u) = true) := by
        simp only [beq_iff_eq]; exact hx
      rw [List.find?_cons_of_neg (p := fun y => key y == u) t hpx]
      rcases List.mem_cons.mp ha with rfl | hmem
      · exact absurd hk hx
      · exact ih hnd.2 a hmem hk

theorem length_filter_lt_of_mem {α : Type} {p : α → Bool} :
    ∀ {l : List α} {x : α}, x ∈ l → p x = false → (l.filter p).length < l.length := by
  intro l
  induction l with
  | nil => intro x hx; cases hx
  | cons y t ih =>
    intro x hx hpx
    rcases List.mem_cons.mp hx with rfl | hmem
    · rw [List.filter_cons, hpx]
      exact Nat.lt_succ_of_le (List.length_filter_le p t)
    · cases hpy : p y
      · rw [List.filter_cons, hpy]
        exact Nat.lt_succ_of_lt (ih hmem hpx)
      · rw [List.filter_cons, hpy]
        simpa using Nat.succ_lt_succ (ih hmem hpx)

theorem findOrCreateArtist_of_some {s : Store} {p : ArtistPayload} {a : Artist}
    (h : s.artists.find? (fun x => x.url == p.url) = some a) :
    findOrCreateArtist s p = (a, s) := by
  unfold findOrCreateArtist; rw [h]

theorem findOrCreateArtist_of_none {s : Store} {p : ArtistPayload}
    (h : s.artists.find? (fun x => x.url == p.url) = none) :
    findOrCreateArtist s p =
      (⟨s.nextArtistId, p.name, p.url, p.imageUrl⟩,
        { s with artists := s.artists ++ [⟨s.nextArtistId, p.name, p.url, p.imageUrl⟩],
                 nextArtistId := s.nextArtistId + 1 }) := by
  unfold findOrCreateArtist; rw [h]

theorem findOrCreateArtist_reuse {s : Store} {p : ArtistPayload}
    (h : ∃ a ∈ s.artists, a.url = p.url) :
    (findOrCreateArtist s p).2 = s := by
  rcases h with ⟨a, ha, hurl⟩
  cases hf : s.artists.find? (fun x => x.url == p.url) with
  | none =>
    rcases List.find?_eq_none.mp hf a ha with hc
    exact absurd (beq_iff_eq.mpr hurl) hc
  | some b => rw [findOrCreateArtist_of_some hf]

theorem findOrCreateArtist_exact {s : Store} {p : ArtistPayload} {a : Artist}
    (hnd : (s.artists.map Artist.url).Nodup) (ha : a ∈ s.artists)
    (hurl : a.url = p.url) : findOrCreateArtist s p = (a, s) :=
  findOrCreateArtist_of_some (find?_key_eq_some Artist.url p.url s.artists hnd a ha hurl)

theorem findOrCreateArtist_fst_mem (s : Store) (p : ArtistPayload) :
    (findOrCreateArtist s p).1 ∈ (findOrCreateArtist s p).2.artists ∧
      (findOrCreateArtist s p).1.url = p.url := by
  cases hf : s.artists.find? (fun x => x.url == p.url) with
  | none =>
    rw [findOrCreateArtist_of_none hf]
    exact ⟨List.mem_append_right _ (List.mem_singleton_self _), rfl⟩
  | some a =>
    rw [findOrCreateArtist_of_some hf]
    show a ∈ s.artists ∧ a.url = p.url
    have hpa : (a.url == p.url) = true :=
      List.find?_some (p := fun y : Artist => y.url == p.url) hf
    exact ⟨List.mem_of_find?_eq_some hf, beq_iff_eq.mp hpa⟩

theorem findOrCreateArtist_artists_mono (s : Store) (p : ArtistPayload) :
    ∀ a ∈ s.artists, a ∈ (findOrCreateArtist s p).2.artists := by
  intro a ha
  cases hf : s.artists.find? (fun x => x.url == p.url) with
  | none => rw [findOrCreateArtist_of_none hf]; exact List.mem_append_left _ ha
  | some b => rw [findOrCreateArtist_of_some hf]; exact ha

theorem findOrCreateArtist_nodup {s : Store} {p : ArtistPayload}
    (hnd : (s.artists.map Artist.url).Nodup) :
    ((findOrCreateArtist s p).2.artists.map Artist.url).Nodup := by
  cases hf : s.artists.find? (fun x => x.url == p.url) with
  | some b => rw [findOrCreateArtist_of_some hf]; exact hnd
  | none =>
    rw [findOrCreateArtist_of_none hf]
    have hfresh : ∀ x ∈ s.artists, x.url ≠ p.url := by
      intro x hx hc
      exact (List.find?_eq_none.mp hf x hx) (beq_iff_eq.mpr hc)
    rw [List.map_append]
    refine List.nodup_append.mpr ⟨hnd, List.nodup_singleton _, ?_⟩
    intro v hv hv1
    rcases List.mem_map.mp hv with ⟨x, hx, rfl⟩
    rcases List.mem_singleton.mp hv1 with h
    exact hfresh x hx h

theorem findOrCreateArtist_frame (s : Store) (p : ArtistPayload) :
    (findOrCreateArtist s p).2.albums = s.albums ∧
      (findOrCreateArtist s p).2.songs = s.songs ∧
      (findOrCreateArtist s p).2.userArtists = s.userArtists ∧
      (findOrCreateArtist s p).2.userAlbums = s.userAlbums ∧
      (findOrCreateArtist s p).2.userSongs = s.userSongs := by
  cases hf : s.artists.find? (fun x => x.url == p.url) with
  | none => rw [findOrCreateArtist_of_none hf]; exact ⟨rfl, rfl, rfl, rfl, rfl⟩
  | some b => rw [findOrCreateArtist_of_some hf]; exact ⟨rfl, rfl, rfl, rfl, rfl⟩

theorem findOrCreateArtist_url_mem (s : Store) (p : ArtistPayload) :
    ∃ a ∈ (findOrCreateArtist s p).2.artists, a.url = p.url :=
  ⟨(findOrCreateArtist s p).1, (findOrCreateArtist_fst_mem s p).1,
    (findOrCreateArtist_fst_mem s p).2⟩

theorem findOrCreateAlbum_of_some {s : Store} {arId : Nat} {p : AlbumPayload} {b : Album}
    (h : s.albums.find? (fun x => x.url == p.url) = some b) :
    findOrCreateAlbum s arId p = (b, s) := by
  unfold findOrCreateAlbum; rw [h]

theorem findOrCreateAlbum_of_none {s : Store} {arId : Nat} {p : AlbumPayload}
    (h : s.albums.find? (fun x => x.url == p.url) = none) :
    findOrCreateAlbum s arId p =
      (⟨s.nextAlbumId, p.name, p.url, p.imageUrl, arId⟩,
        { s with albums := s.albums ++ [⟨s.nextAlbumId, p.name, p.url, p.imageUrl, arId⟩],
                 nextAlbumId := s.nextAlbumId + 1 }) := by
  unfold findOrCreateAlbum; rw [h]

theorem findOrCreateAlbum_reuse {s : Store} {arId : Nat} {p : AlbumPayload}
    (h : ∃ b ∈ s.albums, b.url = p.url) :
    (findOrCreateAlbum s arId p).2 = s := by
  rcases h with ⟨b, hb, hurl⟩
  cases hf : s.albums.find? (fun x => x.url == p.url) with
  | none => exact absurd (beq_iff_eq.mpr hurl) (List.find?_eq_none.mp hf b hb)
  | some c => rw [findOrCreateAlbum_of_some hf]

theorem findOrCreateAlbum_exact {s : Store} {arId : Nat} {p : AlbumPayload} {b : Album}
    (hnd : (s.albums.map Album.url).Nodup) (hb : b ∈ s.albums)
    (hurl : b.url = p.url) : findOrCreateAlbum s arId p = (b, s) :=
  findOrCreateAlbum_of_some (find?_key_eq_some Album.url p.url s.albums hnd b hb hurl)

theorem findOrCreateAlbum_fst_mem (s : Store) (arId : Nat) (p : AlbumPayload) :
    (findOrCreateAlbum s arId p).1 ∈ (findOrCreateAlbum s arId p).2.albums ∧
      (findOrCreateAlbum s arId p).1.url = p.url := by
  cases hf : s.albums.find? (fun x => x.url == p.url) with
  | none =>
    rw [findOrCreateAlbum_of_none hf]
    exact ⟨List.mem_append_right _ (List.mem_singleton_self _), rfl⟩
  | some b =>
    rw [findOrCreateAlbum_of_some hf]
    show b ∈ s.albums ∧ b.url = p.url
    have hpa : (b.url == p.url) = true :=
      List.find?_some (p := fun y : Album => y.url == p.url) hf
    exact ⟨List.mem_of_find?_eq_some hf, beq_iff_eq.mp hpa⟩

theorem findOrCreateAlbum_nodup {s : Store} {arId : Nat} {p : AlbumPayload}
    (hnd : (s.albums.map Album.url).Nodup) :
    ((findOrCreateAlbum s arId p).2.albums.map Album.url).Nodup := by
  cases hf : s.albums.find? (fun x => x.url == p.url) with
  | some b => rw [findOrCreateAlbum_of_some hf]; exact hnd
  | none =>
    rw [findOrCreateAlbum_of_none hf]
    have hfresh : ∀ x ∈ s.albums, x.url ≠ p.url := by
      intro x hx hc
      exact (List.find?_eq_none.mp hf x hx) (beq_iff_eq.mpr hc)
    rw [List.map_append]
    refine List.nodup_append.mpr ⟨hnd, List.nodup_singleton _, ?_⟩
    intro v hv hv1
    rcases List.mem_map.mp hv with ⟨x, hx, rfl⟩
    exact hfresh x hx (List.mem_singleton.mp hv1)

theorem findOrCreateAlbum_frame (s : Store) (arId : Nat) (p : AlbumPayload) :
    (findOrCreateAlbum s arId p).2.artists = s.artists ∧
      (findOrCreateAlbum s arId p).2.songs = s.songs ∧
      (findOrCreateAlbum s arId p).2.userArtists = s.userArtists ∧
      (findOrCreateAlbum s arId p).2.userAlbums = s.userAlbums ∧
      (findOrCreateAlbum s arId p).2.userSongs = s.userSongs := by
  cases hf : s.albums.find? (fun x => x.url == p.url) with
  | none => rw [findOrCreateAlbum_of_none hf]; exact ⟨rfl, rfl, rfl, rfl, rfl⟩
  | some b => rw [findOrCreateAlbum_of_some hf]; exact ⟨rfl, rfl, rfl, rfl, rfl⟩

theorem findOrCreateSong_of_some {s : Store} {arId : Nat} {p : SongPayload} {b : Song}
    (h : s.songs.find? (fun x => x.url == p.url) = some b) :
    findOrCreateSong s arId p = (b, s) := by
  unfold findOrCreateSong; rw [h]

theorem findOrCreateSong_of_none {s : Store} {arId : Nat} {p : SongPayload}
    (h : s.songs.find? (fun x => x.url == p.url) = none) :
    findOrCreateSong s arId p =
      (⟨s.nextSongId, p.name, p.url, arId⟩,
        { s with songs := s.songs ++ [⟨s.nextSongId, p.name, p.url, arId⟩],
                 nextSongId := s.nextSongId + 1 }) := by
  unfold findOrCreateSong; rw [h]

theorem findOrCreateSong_reuse {s : Store} {arId : Nat} {p : SongPayload}
    (h : ∃ b ∈ s.songs, b.url = p.url) :
    (findOrCreateSong s arId p).2 = s := by
  rcases h with ⟨b, hb, hurl⟩
  cases hf : s.songs.find? (fun x => x.url == p.url) with
  | none => exact absurd (beq_iff_eq.mpr hurl) (List.find?_eq_none.mp hf b hb)
  | some c => rw [findOrCreateSong_of_some hf]

theorem findOrCreateSong_exact {s : Store} {arId : Nat} {p : SongPayload} {b : Song}
    (hnd : (s.songs.map Song.url).Nodup) (hb : b ∈ s.songs)
    (hurl : b.url = p.url) : findOrCreateSong s arId p = (b, s) :=
  findOrCreateSong_of_some (find?_key_eq_some Song.url p.url s.songs hnd b hb hurl)

theorem findOrCreateSong_fst_mem (s : Store) (arId : Nat) (p : SongPayload) :
    (findOrCreateSong s arId p).1 ∈ (findOrCreateSong s arId p).2.songs ∧
      (findOrCreateSong s arId p).1.url = p.url := by
  cases hf : s.songs.find? (fun x => x.url == p.url) with
  | none =>
    rw [findOrCreateSong_of_none hf]
    exact ⟨List.mem_append_right _ (List.mem_singleton_self _), rfl⟩
  | some b =>
    rw [findOrCreateSong_of_some hf]
    show b ∈ s.songs ∧ b.url = p.url
    have hpa : (b.url == p.url) = true :=
      List.find?_some (p := fun y : Song => y.url == p.url) hf
    exact ⟨List.mem_of_find?_eq_some hf, beq_iff_eq.mp hpa⟩

theorem findOrCreateSong_nodup {s : Store} {arId : Nat} {p : SongPayload}
    (hnd : (s.songs.map Song.url).Nodup) :
    ((findOrCreateSong s arId p).2.songs.map Song.url).Nodup := by
  cases hf : s.songs.find? (fun x => x.url == p.url) with
  | some b => rw [findOrCreateSong_of_some hf]; exact hnd
  | none =>
    rw [findOrCreateSong_of_none hf]
    have hfresh : ∀ x ∈ s.songs, x.url ≠ p.url := by
      intro x hx hc
      exact (List.find?_eq_none.mp hf x hx) (beq_iff_eq.mpr hc)
    rw [List.map_append]
    refine List.nodup_append.mpr ⟨hnd, List.nodup_singleton _, ?_⟩
    intro v hv hv1
    rcases List.mem_map.mp hv with ⟨x, hx, rfl⟩
    exact hfresh x hx (List.mem_singleton.mp hv1)

theorem findOrCreateSong_frame (s : Store) (arId : Nat) (p : SongPayload) :
    (findOrCreateSong s arId p).2.artists = s.artists ∧
      (findOrCreateSong s arId p).2.albums = s.albums ∧
      (findOrCreateSong s arId p).2.userArtists = s.userArtists ∧
      (findOrCreateSong s arId p).2.userAlbums = s.userAlbums ∧
      (findOrCreateSong s arId p).2.userSongs = s.userSongs := by
  cases hf : s.songs.find? (fun x => x.url == p.url) with
  | none => rw [findOrCreateSong_of_none hf]; exact ⟨rfl, rfl, rfl, rfl, rfl⟩
  | some b => rw [findOrCreateSong_of_some hf]; exact ⟨rfl, rfl, rfl, rfl, rfl⟩

theorem associate_quota {maxReq u : Nat} {rows : List JoinRow} {cid : Nat}
    (h : maxReq ≤ countJoins u rows) :
    associate maxReq u rows cid = Except.error Fault.quota := by
  unfold associate; rw [if_pos h]

theorem associate_conflict {maxReq u : Nat} {rows : List JoinRow} {cid : Nat}
    (h1 : countJoins u rows < maxReq) (h2 : hasJoin u cid rows = true) :
    associate maxReq u rows cid = Except.error Fault.conflict := by
  unfold associate
  rw [if_neg (Nat.not_le.mpr h1), if_pos h2]

theorem associate_ok {maxReq u : Nat} {rows : List JoinRow} {cid : Nat}
    (h1 : countJoins u rows < maxReq) (h2 : hasJoin u cid rows = false) :
    associate maxReq u rows cid = Except.ok (rows ++ [⟨u, cid⟩]) := by
  unfold associate
  rw [if_neg (Nat.not_le.mpr h1), if_neg (by simp [h2])]

theorem postArtist_error {m u : Nat} {p : ArtistPayload} {s : Store} {a : Artist}
    {s1 : Store} {f : Fault} (hfoc : findOrCreateArtist s p = (a, s1))
    (ha : associate m u s1.userArtists a.id = Except.error f) :
    postArtist m u p s = (Except.error f, s1) := by
  simp only [postArtist, hfoc, ha]

theorem postArtist_ok {m u : Nat} {p : ArtistPayload} {s : Store} {a : Artist}
    {s1 : Store} {rows : List JoinRow} (hfoc : findOrCreateArtist s p = (a, s1))
    (ha : associate m u s1.userArtists a.id = Except.ok rows) :
    postArtist m u p s = (Except.ok a, { s1 with userArtists := rows }) := by
  simp only [postArtist, hfoc, ha]

theorem postAlbum_invalid {m u : Nat} {p : AlbumPayload} {s : Store}
    (h : validArtistSub p.artist = false) :
    postAlbum m u p s = (Except.error Fault.validation, s) := by
  cases hart : p.artist with
  | none => simp only [postAlbum, hart]
  | some ap =>
    rw [hart] at h
    unfold validArtistSub at h
    have hurl : ap.url = "" := by
      simpa using h
    simp only [postAlbum, hart, hurl]
    simp

theorem postAlbum_error {m u : Nat} {p : AlbumPayload} {s : Store}
    {ap : ArtistPayload} {ar : Artist} {s1 : Store} {al : Album} {s2 : Store}
    {f : Fault} (hart : p.artist = some ap) (hurl : ap.url ≠ "")
    (hfa : findOrCreateArtist s ap = (ar, s1))
    (hfb : findOrCreateAlbum s1 ar.id p = (al, s2))
    (ha : associate m u s2.userAlbums al.id = Except.error f) :
    postAlbum m u p s = (Except.error f, s2) := by
  simp only [postAlbum, hart, if_neg hurl, hfa, hfb, ha]

theorem postAlbum_ok {m u : Nat} {p : AlbumPayload} {s : Store}
    {ap : ArtistPayload} {ar : Artist} {s1 : Store} {al : Album} {s2 : Store}
    {rows : List JoinRow} (hart : p.artist = some ap) (hurl : ap.url ≠ "")
    (hfa : findOrCreateArtist s ap = (ar, s1))
    (hfb : findOrCreateAlbum s1 ar.id p = (al, s2))
    (ha : associate m u s2.userAlbums al.id = Except.ok rows) :
    postAlbum m u p s =
      (Except.ok (al, findArtistById s2 al.artistId), { s2 with userAlbums := rows }) := by
  simp only [postAlbum, hart, if_neg hurl, hfa, hfb, ha]

theorem postSong_invalid {m u : Nat} {p : SongPayload} {s : Store}
    (h : validArtistSub p.artist = false) :
    postSong m u p s = (Except.error Fault.validation, s) := by
  cases hart : p.artist with
  | none => simp only [postSong, hart]
  | some ap =>
    rw [hart] at h
    unfold validArtistSub at h
    have hurl : ap.url = "" := by
      simpa using h
    simp only [postSong, hart, hurl]
    simp

theorem postSong_error {m u : Nat} {p : SongPayload} {s : Store}
    {ap : ArtistPayload} {ar : Artist} {s1 : Store} {sg : Song} {s2 : Store}
    {f : Fault} (hart : p.artist = some ap) (hurl : ap.url ≠ "")
    (hfa : findOrCreateArtist s ap = (ar, s1))
    (hfb : findOrCreateSong s1 ar.id p = (sg, s2))
    (ha : associate m u s2.userSongs sg.id = Except.error f) :
    postSong m u p s = (Except.error f, s2) := by
  simp only [postSong, hart, if_neg hurl, hfa, hfb, ha]

theorem postSong_ok {m u : Nat} {p : SongPayload} {s : Store}
    {ap : ArtistPayload} {ar : Artist} {s1 : Store} {sg : Song} {s2 : Store}
    {rows : List JoinRow} (hart : p.artist = some ap) (hurl : ap.url ≠ "")
    (hfa : findOrCreateArtist s ap = (ar, s1))
    (hfb : findOrCreateSong s1 ar.id p = (sg, s2))
    (ha : associate m u s2.userSongs sg.id = Except.ok rows) :
    postSong m u p s =
      (Except.ok (sg, findArtistById s2 sg.artistId), { s2 with userSongs := rows }) := by
  simp only [postSong, hart, if_neg hurl, hfa, hfb, ha]

theorem deleteAssoc_pos {u cid : Nat} {rows : List JoinRow}
    (h : hasJoin u cid rows = true) :
    deleteAssoc u cid rows =
      (Except.ok (), rows.filter (fun j => !(j.userId == u && j.targetId == cid))) := by
  unfold deleteAssoc; rw [if_pos h]

theorem deleteAssoc_neg {u cid : Nat} {rows : List JoinRow}
    (h : hasJoin u cid rows = false) :
    deleteAssoc u cid rows = (Except.error Fault.notFound, rows) := by
  unfold deleteAssoc
  rw [if_neg (by simp [h])]

theorem hasJoin_filter_out (u cid : Nat) (rows : List JoinRow) :
    hasJoin u cid (rows.filter (fun j => !(j.userId == u && j.targetId == cid))) = false := by
  unfold hasJoin
  rw [List.any_eq_false]
  intro j hj
  have := (List.mem_filter.mp hj).2
  simp only [Bool.not_eq_true'] at this
  simp [this]

theorem filter_keep_of_not_pair {u cid : Nat} {rows : List JoinRow} {j : JoinRow}
    (hj : j ∈ rows) (h : ¬(j.userId = u ∧ j.targetId = cid)) :
    j ∈ rows.filter (fun x => !(x.userId == u && x.targetId == cid)) := by
  refine List.mem_filter.mpr ⟨hj, ?_⟩
  by_cases h1 : j.userId = u
  · have h2 : j.targetId ≠ cid := fun hc => h ⟨h1, hc⟩
    simp [h1, h2]
  · simp [h1]

theorem countJoins_filter_pair_lt {u cid : Nat} {rows : List JoinRow}
    (h : hasJoin u cid rows = true) :
    countJoins u (rows.filter (fun j => !(j.userId == u && j.targetId == cid))) <
      countJoins u rows := by
  unfold hasJoin at h
  rw [List.any_eq_true] at h
  rcases h with ⟨j0, hj0, hp0⟩
  have huser : (j0.userId == u) = true := (Bool.and_eq_true_iff.mp hp0).1
  unfold countJoins
  have e1 : (rows.filter (fun j => !(j.userId == u && j.targetId == cid))).filter
      (fun j => j.userId == u) =
      (rows.filter (fun j => j.userId == u)).filter
      (fun j => !(j.userId == u && j.targetId == cid)) := by
    rw [List.filter_filter, List.filter_filter]
    congr 1
    funext j
    exact Bool.and_comm _ _
  rw [e1]
  apply length_filter_lt_of_mem (x := j0)
  · exact List.mem_filter.mpr ⟨hj0, huser⟩
  · simp [hp0]

theorem countPair_filter_out (u cid : Nat) (rows : List JoinRow) :
    countPair u cid (rows.filter (fun j => !(j.userId == u && j.targetId == cid))) = 0 := by
  unfold countPair
  rw [List.filter_filter]
  have e : (fun j : JoinRow =>
      (j.userId == u && j.targetId == cid) && !(j.userId == u && j.targetId == cid)) =
      fun _ => false := by
    funext j
    exact Bool.and_not_self _
  rw [e]
  simp

theorem countPair_append_pair (u cid : Nat) (rows : List JoinRow) :
    countPair u cid (rows ++ [⟨u, cid⟩]) = countPair u cid rows + 1 := by
  unfold countPair
  rw [List.filter_append]
  simp

theorem postArtist_frame (m u : Nat) (p : ArtistPayload) (s : Store) :
    (postArtist m u p s).2.artists = (findOrCreateArtist s p).2.artists ∧
    (postArtist m u p s).2.albums = s.albums ∧
    (postArtist m u p s).2.songs = s.songs ∧
    (postArtist m u p s).2.userAlbums = s.userAlbums ∧
    (postArtist m u p s).2.userSongs = s.userSongs := by
  rcases hfoc : findOrCreateArtist s p with ⟨a, s1⟩
  have hfr := findOrCreateArtist_frame s p
  rw [hfoc] at hfr
  cases ha : associate m u s1.userArtists a.id with
  | error f =>
    rw [postArtist_error hfoc ha]
    exact ⟨rfl, hfr.1, hfr.2.1, hfr.2.2.2.1, hfr.2.2.2.2⟩
  | ok rows =>
    rw [postArtist_ok hfoc ha]
    exact ⟨rfl, hfr.1, hfr.2.1, hfr.2.2.2.1, hfr.2.2.2.2⟩

theorem postArtist_urls_nodup {m u : Nat} {p : ArtistPayload} {s : Store}
    (h : UrlsNodup s) : UrlsNodup (postArtist m u p s).2 := by
  have hfr := postArtist_frame m u p s
  refine ⟨?_, by rw [hfr.2.1]; exact h.2.1, by rw [hfr.2.2.1]; exact h.2.2⟩
  rw [hfr.1]
  exact findOrCreateArtist_nodup h.1

theorem postAlbum_urls_nodup {m u : Nat} {p : AlbumPayload} {s : Store}
    (h : UrlsNodup s) : UrlsNodup (postAlbum m u p s).2 := by
  cases hart : p.artist with
  | none =>
    rw [postAlbum_invalid (by simp [validArtistSub, hart])]
    exact h
  | some ap =>
    by_cases hurl : ap.url = ""
    · rw [postAlbum_invalid (by simp [validArtistSub, hart, hurl])]
      exact h
    · rcases hfa : findOrCreateArtist s ap with ⟨ar, s1⟩
      rcases hfb : findOrCreateAlbum s1 ar.id p with ⟨al, s2⟩
      have hfr1 := findOrCreateArtist_frame s ap
      rw [hfa] at hfr1
      have e1 : s1.albums = s.albums := hfr1.1
      have e2 : s1.songs = s.songs := hfr1.2.1
      have ea : (s1.artists.map Artist.url).Nodup := by
        have hx := findOrCreateArtist_nodup (s := s) (p := ap) h.1
        rw [hfa] at hx
        exact hx
      have hnd1 : UrlsNodup s1 := ⟨ea, by rw [e1]; exact h.2.1, by rw [e2]; exact h.2.2⟩
      have hfr2 := findOrCreateAlbum_frame s1 ar.id p
      rw [hfb] at hfr2
      have f1 : s2.artists = s1.artists := hfr2.1
      have f2 : s2.songs = s1.songs := hfr2.2.1
      have eb : (s2.albums.map Album.url).Nodup := by
        have hx := @findOrCreateAlbum_nodup s1 ar.id p hnd1.2.1
        rw [hfb] at hx
        exact hx
      have hnd2 : UrlsNodup s2 :=
        ⟨by rw [f1]; exact hnd1.1, eb, by rw [f2]; exact hnd1.2.2⟩
      cases hassoc : associate m u s2.userAlbums al.id with
      | error f =>
        rw [postAlbum_error hart hurl hfa hfb hassoc]
        exact hnd2
      | ok rows =>
        rw [postAlbum_ok hart hurl hfa hfb hassoc]
        exact hnd2

theorem postSong_urls_nodup {m u : Nat} {p : SongPayload} {s : Store}
    (h : UrlsNodup s) : UrlsNodup (postSong m u p s).2 := by
  cases hart : p.artist with
  | none =>
    rw [postSong_invalid (by simp [validArtistSub, hart])]
    exact h
  | some ap =>
    by_cases hurl : ap.url = ""
    · rw [postSong_invalid (by simp [validArtistSub, hart, hurl])]
      exact h
    · rcases hfa : findOrCreateArtist s ap with ⟨ar, s1⟩
      rcases hfb : findOrCreateSong s1 ar.id p with ⟨sg, s2⟩
      have hfr1 := findOrCreateArtist_frame s ap
      rw [hfa] at hfr1
      have e1 : s1.albums = s.albums := hfr1.1
      have e2 : s1.songs = s.songs := hfr1.2.1
      have ea : (s1.artists.map Artist.url).Nodup := by
        have hx := findOrCreateArtist_nodup (s := s) (p := ap) h.1
        rw [hfa] at hx
        exact hx
      have hnd1 : UrlsNodup s1 := ⟨ea, by rw [e1]; exact h.2.1, by rw [e2]; exact h.2.2⟩
      have hfr2 := findOrCreateSong_frame s1 ar.id p
      rw [hfb] at hfr2
      have f1 : s2.artists = s1.artists := hfr2.1
      have f2 : s2.albums = s1.albums := hfr2.2.1
      have eb : (s2.songs.map Song.url).Nodup := by
        have hx := @findOrCreateSong_nodup s1 ar.id p hnd1.2.2
        rw [hfb] at hx
        exact hx
      have hnd2 : UrlsNodup s2 :=
        ⟨by rw [f1]; exact hnd1.1, by rw [f2]; exact hnd1.2.1, eb⟩
      cases hassoc : associate m u s2.userSongs sg.id with
      | error f =>
        rw [postSong_error hart hurl hfa hfb hassoc]
        exact hnd2
      | ok rows =>
        rw [postSong_ok hart hurl hfa hfb hassoc]
        exact hnd2

theorem postAlbum_albums_of_exists {m u : Nat} {p : AlbumPayload} {s : Store}
    (h : ∃ b ∈ s.albums, b.url = p.url) :
    (postAlbum m u p s).2.albums = s.albums := by
  cases hart : p.artist with
  | none => rw [postAlbum_invalid (by simp [validArtistSub, hart])]
  | some ap =>
    by_cases hurl : ap.url = ""
    · rw [postAlbum_invalid (by simp [validArtistSub, hart, hurl])]
    · rcases hfa : findOrCreateArtist s ap with ⟨ar, s1⟩
      have hfr1 := findOrCreateArtist_frame s ap
      rw [hfa] at hfr1
      have e1 : s1.albums = s.albums := hfr1.1
      have h1 : ∃ b ∈ s1.albums, b.url = p.url := by rw [e1]; exact h
      have hre := @findOrCreateAlbum_reuse s1 ar.id p h1
      rcases hfb : findOrCreateAlbum s1 ar.id p with ⟨al, s2⟩
      rw [hfb] at hre
      have e2 : s2 = s1 := hre
      cases hassoc : associate m u s2.userAlbums al.id with
      | error f => rw [postAlbum_error hart hurl hfa hfb hassoc, e2, e1]
      | ok rows =>
        rw [postAlbum_ok hart hurl hfa hfb hassoc]
        show s2.albums = s.albums
        rw [e2, e1]

theorem postSong_songs_of_exists {m u : Nat} {p : SongPayload} {s : Store}
    (h : ∃ b ∈ s.songs, b.url = p.url) :
    (postSong m u p s).2.songs = s.songs := by
  cases hart : p.artist with
  | none => rw [postSong_invalid (by simp [validArtistSub, hart])]
  | some ap =>
    by_cases hurl : ap.url = ""
    · rw [postSong_invalid (by simp [validArtistSub, hart, hurl])]
    · rcases hfa : findOrCreateArtist s ap with ⟨ar, s1⟩
      have hfr1 := findOrCreateArtist_frame s ap
      rw [hfa] at hfr1
      have e1 : s1.songs = s.songs := hfr1.2.1
      have h1 : ∃ b ∈ s1.songs, b.url = p.url := by rw [e1]; exact h
      have hre := @findOrCreateSong_reuse s1 ar.id p h1
      rcases hfb : findOrCreateSong s1 ar.id p with ⟨sg, s2⟩
      rw [hfb] at hre
      have e2 : s2 = s1 := hre
      cases hassoc : associate m u s2.userSongs sg.id with
      | error f => rw [postSong_error hart hurl hfa hfb hassoc, e2, e1]
      | ok rows =>
        rw [postSong_ok hart hurl hfa hfb hassoc]
        show s2.songs = s.songs
        rw [e2, e1]

theorem postArtist_artists_of_exists {m u : Nat} {p : ArtistPayload} {s : Store}
    (h : ∃ a ∈ s.artists, a.url = p.url) :
    (postArtist m u p s).2.artists = s.artists := by
  have hfr := postArtist_frame m u p s
  rw [hfr.1, findOrCreateArtist_reuse h]

/-- C1: for every artist/album/song submission whose URL already names an
existing catalog row of the same kind, the dedup-and-associate workflow
reuses that existing row instead of inserting a new one (the catalog table
of that kind is left unchanged), and every workflow preserves the
invariant that there is at most one catalog row per (kind, URL) pair. -/
theorem c1_dedup_reuses_existing_row :
    (∀ m u (p : ArtistPayload) (s : Store), (∃ a ∈ s.artists, a.url = p.url) →
      (postArtist m u p s).2.artists = s.artists) ∧
    (∀ m u (p : AlbumPayload) (s : Store), (∃ b ∈ s.albums, b.url = p.url) →
      (postAlbum m u p s).2.albums = s.albums) ∧
    (∀ m u (p : SongPayload) (s : Store), (∃ b ∈ s.songs, b.url = p.url) →
      (postSong m u p s).2.songs = s.songs) ∧
    (∀ m u (p : ArtistPayload) (s : Store), UrlsNodup s →
      UrlsNodup (postArtist m u p s).2) ∧
    (∀ m u (p : AlbumPayload) (s : Store), UrlsNodup s →
      UrlsNodup (postAlbum m u p s).2) ∧
    (∀ m u (p : SongPayload) (s : Store), UrlsNodup s →
      UrlsNodup (postSong m u p s).2) :=
  ⟨fun _ _ _ _ h => postArtist_artists_of_exists h,
   fun _ _ _ _ h => postAlbum_albums_of_exists h,
   fun _ _ _ _ h => postSong_songs_of_exists h,
   fun _ _ _ _ h => postArtist_urls_nodup h,
   fun _ _ _ _ h => postAlbum_urls_nodup h,
   fun _ _ _ _ h => postSong_urls_nodup h⟩

/-- C1 witness: on the fixture store, re-submitting the already catalogued
artist, album and song payloads leaves the catalog tables unchanged and
keeps the URLs duplicate-free. -/
theorem c1_dedup_reuses_existing_row_witness :
    (postArtist 5 2 wArtistP wStore).2.artists = wStore.artists ∧
    (postAlbum 5 2 wAlbumP wStore).2.albums = wStore.albums ∧
    (postSong 5 2 wSongP wStore).2.songs = wStore.songs ∧
    UrlsNodup (postArtist 5 2 wArtistP wStore).2 :=
  ⟨c1_dedup_reuses_existing_row.1 5 2 wArtistP wStore ⟨wArtist, by decide, by decide⟩,
   c1_dedup_reuses_existing_row.2.1 5 2 wAlbumP wStore ⟨wAlbum, by decide, by decide⟩,
   c1_dedup_reuses_existing_row.2.2.1 5 2 wSongP wStore ⟨wSong, by decide, by decide⟩,
   c1_dedup_reuses_existing_row.2.2.2.1 5 2 wArtistP wStore (by decide)⟩

/-- C2: a user who already has maxReq join rows of a given kind has the
next POST of that kind fail with the quota fault, which the boundary maps
to HTTP 400, and gains no new join row of that kind (for albums and songs
the payload is assumed to pass validation, so the failure is the quota
fault itself). -/
theorem c2_quota_limit :
    (∀ m u (p : ArtistPayload) (s : Store), countJoins u s.userArtists = m →
      (postArtist m u p s).1 = Except.error Fault.quota ∧
      (postArtist m u p s).2.userArtists = s.userArtists) ∧
    (∀ m u (p : AlbumPayload) (s : Store) (ap : ArtistPayload),
      p.artist = some ap → ap.url ≠ "" → countJoins u s.userAlbums = m →
      (postAlbum m u p s).1 = Except.error Fault.quota ∧
      (postAlbum m u p s).2.userAlbums = s.userAlbums) ∧
    (∀ m u (p : SongPayload) (s : Store) (ap : ArtistPayload),
      p.artist = some ap → ap.url ≠ "" → countJoins u s.userSongs = m →
      (postSong m u p s).1 = Except.error Fault.quota ∧
      (postSong m u p s).2.userSongs = s.userSongs) ∧
    httpStatus Fault.quota = 400 := by
  refine ⟨?_, ?_, ?_, rfl⟩
  · intro m u p s hc
    rcases hfoc : findOrCreateArtist s p with ⟨a, s1⟩
    have hfr := findOrCreateArtist_frame s p
    rw [hfoc] at hfr
    have hu : s1.userArtists = s.userArtists := hfr.2.2.1
    have hcc : m ≤ countJoins u s1.userArtists := by
      rw [hu, hc]
    have hq := @associate_quota m u s1.userArtists a.id hcc
    rw [postArtist_error hfoc hq]
    exact ⟨rfl, hu⟩
  · intro m u p s ap hart hurl hc
    rcases hfa : findOrCreateArtist s ap with ⟨ar, s1⟩
    have hfr1 := findOrCreateArtist_frame s ap
    rw [hfa] at hfr1
    rcases hfb : findOrCreateAlbum s1 ar.id p with ⟨al, s2⟩
    have hfr2 := findOrCreateAlbum_frame s1 ar.id p
    rw [hfb] at hfr2
    have hu : s2.userAlbums = s.userAlbums := by
      have h1 : s1.userAlbums = s.userAlbums := hfr1.2.2.2.1
      have h2 : s2.userAlbums = s1.userAlbums := hfr2.2.2.2.1
      rw [h2, h1]
    have hcc : m ≤ countJoins u s2.userAlbums := by
      rw [hu, hc]
    have hq := @associate_quota m u s2.userAlbums al.id hcc
    rw [postAlbum_error hart hurl hfa hfb hq]
    exact ⟨rfl, hu⟩
  · intro m u p s ap hart hurl hc
    rcases hfa : findOrCreateArtist s ap with ⟨ar, s1⟩
    have hfr1 := findOrCreateArtist_frame s ap
    rw [hfa] at hfr1
    rcases hfb : findOrCreateSong s1 ar.id p with ⟨sg, s2⟩
    have hfr2 := findOrCreateSong_frame s1 ar.id p
    rw [hfb] at hfr2
    have hu : s2.userSongs = s.userSongs := by
      have h1 : s1.userSongs = s.userSongs := hfr1.2.2.2.2
      have h2 : s2.userSongs = s1.userSongs := hfr2.2.2.2.2
      rw [h2, h1]
    have hcc : m ≤ countJoins u s2.userSongs := by
      rw [hu, hc]
    have hq := @associate_quota m u s2.userSongs sg.id hcc
    rw [postSong_error hart hurl hfa hfb hq]
    exact ⟨rfl, hu⟩

/-- C2 witness: with a ceiling of one request and one join row of each
kind already present, each POST fails with the quota fault and the join
tables are unchanged. -/
theorem c2_quota_limit_witness :
    ((postArtist 1 1 wArtistP wStore).1 = Except.error Fault.quota ∧
      (postArtist 1 1 wArtistP wStore).2.userArtists = wStore.userArtists) ∧
    ((postAlbum 1 1 wAlbumP wStore).1 = Except.error Fault.quota ∧
      (postAlbum 1 1 wAlbumP wStore).2.userAlbums = wStore.userAlbums) ∧
    ((postSong 1 1 wSongP wStore).1 = Except.error Fault.quota ∧
      (postSong 1 1 wSongP wStore).2.userSongs = wStore.userSongs) :=
  ⟨c2_quota_limit.1 1 1 wArtistP wStore (by decide),
   c2_quota_limit.2.1 1 1 wAlbumP wStore wArtistP rfl (by decide) (by decide),
   c2_quota_limit.2.2.1 1 1 wSongP wStore wArtistP rfl (by decide) (by decide)⟩

/-- C3 counterexample: the claim says every resubmission of an
already-associated item fails surfaced as HTTP 500; but when the user is
also at the quota ceiling (ceiling 1, one join row held, and that row is
the resubmitted artist), the workflow fails with the quota fault, which
the boundary maps to 400, not 500. -/
theorem c3_counterexample :
    wArtist ∈ wStore.artists ∧ wArtist.url = wArtistP.url ∧
    hasJoin 1 wArtist.id wStore.userArtists = true ∧
    (postArtist 1 1 wArtistP wStore).1 = Except.error Fault.quota ∧
    httpStatus Fault.quota = 400 := by
  refine ⟨by decide, by decide, by decide, ?_, rfl⟩
  rfl

/-- C3 (amended): for every user below the quota ceiling and every catalog
entry already associated to that user, submitting the same item again
fails with the conflict fault, surfaced as HTTP 500, and no second join
row for the (user, catalog-entry) pair is created. -/
theorem c3_duplicate_association_conflict :
    (∀ m u (p : ArtistPayload) (s : Store) (a : Artist),
      a ∈ s.artists → a.url = p.url →
      (s.artists.map Artist.url).Nodup →
      hasJoin u a.id s.userArtists = true →
      countJoins u s.userArtists < m →
      (postArtist m u p s).1 = Except.error Fault.conflict ∧
      (postArtist m u p s).2.userArtists = s.userArtists) ∧
    (∀ m u (p : AlbumPayload) (s : Store) (ap : ArtistPayload) (b : Album),
      p.artist = some ap → ap.url ≠ "" →
      b ∈ s.albums → b.url = p.url →
      (s.albums.map Album.url).Nodup →
      hasJoin u b.id s.userAlbums = true →
      countJoins u s.userAlbums < m →
      (postAlbum m u p s).1 = Except.error Fault.conflict ∧
      (postAlbum m u p s).2.userAlbums = s.userAlbums) ∧
    (∀ m u (p : SongPayload) (s : Store) (ap : ArtistPayload) (b : Song),
      p.artist = some ap → ap.url ≠ "" →
      b ∈ s.songs → b.url = p.url →
      (s.songs.map Song.url).Nodup →
      hasJoin u b.id s.userSongs = true →
      countJoins u s.userSongs < m →
      (postSong m u p s).1 = Except.error Fault.conflict ∧
      (postSong m u p s).2.userSongs = s.userSongs) ∧
    httpStatus Fault.conflict = 500 := by
  refine ⟨?_, ?_, ?_, rfl⟩
  · intro m u p s a ha hurl hnd hj hcount
    have hfoc := findOrCreateArtist_exact hnd ha hurl
    have hconf := associate_conflict hcount hj
    rw [postArtist_error hfoc hconf]
    exact ⟨rfl, rfl⟩
  · intro m u p s ap b hart hurl hb hburl hnd hj hcount
    rcases hfa : findOrCreateArtist s ap with ⟨ar, s1⟩
    have hfr1 := findOrCreateArtist_frame s ap
    rw [hfa] at hfr1
    have e1 : s1.albums = s.albums := hfr1.1
    have eu : s1.userAlbums = s.userAlbums := hfr1.2.2.2.1
    have hnd1 : (s1.albums.map Album.url).Nodup := by rw [e1]; exact hnd
    have hb1 : b ∈ s1.albums := by rw [e1]; exact hb
    have hfb := @findOrCreateAlbum_exact s1 ar.id p b hnd1 hb1 hburl
    have hconf : associate m u s1.userAlbums b.id = Except.error Fault.conflict := by
      rw [eu]; exact associate_conflict hcount hj
    rw [postAlbum_error hart hurl hfa hfb hconf]
    exact ⟨rfl, eu⟩
  · intro m u p s ap b hart hurl hb hburl hnd hj hcount
    rcases hfa : findOrCreateArtist s ap with ⟨ar, s1⟩
    have hfr1 := findOrCreateArtist_frame s ap
    rw [hfa] at hfr1
    have e1 : s1.songs = s.songs := hfr1.2.1
    have eu : s1.userSongs = s.userSongs := hfr1.2.2.2.2
    have hnd1 : (s1.songs.map Song.url).Nodup := by rw [e1]; exact hnd
    have hb1 : b ∈ s1.songs := by rw [e1]; exact hb
    have hfb := @findOrCreateSong_exact s1 ar.id p b hnd1 hb1 hburl
    have hconf : associate m u s1.userSongs b.id = Except.error Fault.conflict := by
      rw [eu]; exact associate_conflict hcount hj
    rw [postSong_error hart hurl hfa hfb hconf]
    exact ⟨rfl, eu⟩

/-- C3 (amended) witness: with ceiling 2 and one existing association per
kind, each resubmission of the associated item fails with the conflict
fault and the join tables are unchanged. -/
theorem c3_duplicate_association_conflict_witness :
    ((postArtist 2 1 wArtistP wStore).1 = Except.error Fault.conflict ∧
      (postArtist 2 1 wArtistP wStore).2.userArtists = wStore.userArtists) ∧
    ((postAlbum 2 1 wAlbumP wStore).1 = Except.error Fault.conflict ∧
      (postAlbum 2 1 wAlbumP wStore).2.userAlbums = wStore.userAlbums) ∧
    ((postSong 2 1 wSongP wStore).1 = Except.error Fault.conflict ∧
      (postSong 2 1 wSongP wStore).2.userSongs = wStore.userSongs) :=
  ⟨c3_duplicate_association_conflict.1 2 1 wArtistP wStore wArtist
      (by decide) (by decide) (by decide) (by decide) (by decide),
   c3_duplicate_association_conflict.2.1 2 1 wAlbumP wStore wArtistP wAlbum
      rfl (by decide) (by decide) (by decide) (by decide) (by decide) (by decide),
   c3_duplicate_association_conflict.2.2.1 2 1 wSongP wStore wArtistP wSong
      rfl (by decide) (by decide) (by decide) (by decide) (by decide) (by decide)⟩

/-- C4: for every (currentUserId, catalogId), disassociation deletes the
join row for the pair when it exists (success; the pair is gone and every
other join row survives), fails with the not-found fault (HTTP 404)
leaving the store untouched when no such join row exists, and in neither
case touches any catalog table. -/
theorem c4_disassociation :
    (∀ u cid (s : Store),
      (hasJoin u cid s.userArtists = true →
        (deleteArtistAssoc u cid s).1 = Except.ok () ∧
        hasJoin u cid (deleteArtistAssoc u cid s).2.userArtists = false ∧
        (∀ j ∈ s.userArtists, ¬(j.userId = u ∧ j.targetId = cid) →
          j ∈ (deleteArtistAssoc u cid s).2.userArtists)) ∧
      (hasJoin u cid s.userArtists = false →
        deleteArtistAssoc u cid s = (Except.error Fault.notFound, s)) ∧
      (deleteArtistAssoc u cid s).2.artists = s.artists ∧
      (deleteArtistAssoc u cid s).2.albums = s.albums ∧
      (deleteArtistAssoc u cid s).2.songs = s.songs) ∧
    (∀ u cid (s : Store),
      (hasJoin u cid s.userAlbums = true →
        (deleteAlbumAssoc u cid s).1 = Except.ok () ∧
        hasJoin u cid (deleteAlbumAssoc u cid s).2.userAlbums = false ∧
        (∀ j ∈ s.userAlbums, ¬(j.userId = u ∧ j.targetId = cid) →
          j ∈ (deleteAlbumAssoc u cid s).2.userAlbums)) ∧
      (hasJoin u cid s.userAlbums = false →
        deleteAlbumAssoc u cid s = (Except.error Fault.notFound, s)) ∧
      (deleteAlbumAssoc u cid s).2.artists = s.artists ∧
      (deleteAlbumAssoc u cid s).2.albums = s.albums ∧
      (deleteAlbumAssoc u cid s).2.songs = s.songs) ∧
    (∀ u cid (s : Store),
      (hasJoin u cid s.userSongs = true →
        (deleteSongAssoc u cid s).1 = Except.ok () ∧
        hasJoin u cid (deleteSongAssoc u cid s).2.userSongs = false ∧
        (∀ j ∈ s.userSongs, ¬(j.userId = u ∧ j.targetId = cid) →
          j ∈ (deleteSongAssoc u cid s).2.userSongs)) ∧
      (hasJoin u cid s.userSongs = false →
        deleteSongAssoc u cid s = (Except.error Fault.notFound, s)) ∧
      (deleteSongAssoc u cid s).2.artists = s.artists ∧
      (deleteSongAssoc u cid s).2.albums = s.albums ∧
      (deleteSongAssoc u cid s).2.songs = s.songs) ∧
    httpStatus Fault.notFound = 404 := by
  refine ⟨?_, ?_, ?_, rfl⟩
  · intro u cid s
    refine ⟨?_, ?_, rfl, rfl, rfl⟩
    · intro h
      have hd := deleteAssoc_pos h
      refine ⟨?_, ?_, ?_⟩
      · show (deleteAssoc u cid s.userArtists).1 = Except.ok ()
        rw [hd]
      · show hasJoin u cid (deleteAssoc u cid s.userArtists).2 = false
        rw [hd]
        exact hasJoin_filter_out u cid s.userArtists
      · intro j hj hnp
        show j ∈ (deleteAssoc u cid s.userArtists).2
        rw [hd]
        exact filter_keep_of_not_pair hj hnp
    · intro h
      have hd := deleteAssoc_neg h
      show ((deleteAssoc u cid s.userArtists).1,
        ({ s with userArtists := (deleteAssoc u cid s.userArtists).2 } : Store)) =
        (Except.error Fault.notFound, s)
      rw [hd]
  · intro u cid s
    refine ⟨?_, ?_, rfl, rfl, rfl⟩
    · intro h
      have hd := deleteAssoc_pos h
      refine ⟨?_, ?_, ?_⟩
      · show (deleteAssoc u cid s.userAlbums).1 = Except.ok ()
        rw [hd]
      · show hasJoin u cid (deleteAssoc u cid s.userAlbums).2 = false
        rw [hd]
        exact hasJoin_filter_out u cid s.userAlbums
      · intro j hj hnp
        show j ∈ (deleteAssoc u cid s.userAlbums).2
        rw [hd]
        exact filter_keep_of_not_pair hj hnp
    · intro h
      have hd := deleteAssoc_neg h
      show ((deleteAssoc u cid s.userAlbums).1,
        ({ s with userAlbums := (deleteAssoc u cid s.userAlbums).2 } : Store)) =
        (Except.error Fault.notFound, s)
      rw [hd]
  · intro u cid s
    refine ⟨?_, ?_, rfl, rfl, rfl⟩
    · intro h
      have hd := deleteAssoc_pos h
      refine ⟨?_, ?_, ?_⟩
      · show (deleteAssoc u cid s.userSongs).1 = Except.ok ()
        rw [hd]
      · show hasJoin u cid (deleteAssoc u cid s.userSongs).2 = false
        rw [hd]
        exact hasJoin_filter_out u cid s.userSongs
      · intro j hj hnp
        show j ∈ (deleteAssoc u cid s.userSongs).2
        rw [hd]
        exact filter_keep_of_not_pair hj hnp
    · intro h
      have hd := deleteAssoc_neg h
      show ((deleteAssoc u cid s.userSongs).1,
        ({ s with userSongs := (deleteAssoc u cid s.userSongs).2 } : Store)) =
        (Except.error Fault.notFound, s)
      rw [hd]

/-- C4 witness: on the fixture store, user 1 can disassociate catalog id 1
of each kind (pair removed, catalog untouched) and user 2 gets the
not-found fault with the store unchanged. -/
theorem c4_disassociation_witness :
    (deleteArtistAssoc 1 1 wStore).1 = Except.ok () ∧
    hasJoin 1 1 (deleteArtistAssoc 1 1 wStore).2.userArtists = false ∧
    deleteArtistAssoc 2 1 wStore = (Except.error Fault.notFound, wStore) ∧
    (deleteArtistAssoc 1 1 wStore).2.artists = wStore.artists ∧
    (deleteAlbumAssoc 1 1 wStore).1 = Except.ok () ∧
    (deleteSongAssoc 1 1 wStore).1 = Except.ok () :=
  ⟨((c4_disassociation.1 1 1 wStore).1 (by decide)).1,
   ((c4_disassociation.1 1 1 wStore).1 (by decide)).2.1,
   (c4_disassociation.1 2 1 wStore).2.1 (by decide),
   (c4_disassociation.1 1 1 wStore).2.2.1,
   ((c4_disassociation.2.1 1 1 wStore).1 (by decide)).1,
   ((c4_disassociation.2.2.1 1 1 wStore).1 (by decide)).1⟩

/-- C5: an album or song submission whose artist sub-object is missing or
lacks a non-empty url fails with the validation fault (HTTP 400) and
leaves the whole store unchanged, so no catalog or join row is created. -/
theorem c5_artist_sub_validation :
    (∀ m u (p : AlbumPayload) (s : Store), validArtistSub p.artist = false →
      postAlbum m u p s = (Except.error Fault.validation, s)) ∧
    (∀ m u (p : SongPayload) (s : Store), validArtistSub p.artist = false →
      postSong m u p s = (Except.error Fault.validation, s)) ∧
    httpStatus Fault.validation = 400 :=
  ⟨fun _ _ _ _ h => postAlbum_invalid h,
   fun _ _ _ _ h => postSong_invalid h, rfl⟩

/-- C5 witness: an album payload with no artist object and a song payload
whose artist has an empty url are both rejected with the validation
fault, leaving the fixture store unchanged. -/
theorem c5_artist_sub_validation_witness :
    postAlbum 5 1 ⟨"albumName", "albumUrl2", some "albumImageUrl", none⟩ wStore =
      (Except.error Fault.validation, wStore) ∧
    postSong 5 1 ⟨"songName", "songUrl2", some ⟨"artist", "", none⟩⟩ wStore =
      (Except.error Fault.validation, wStore) :=
  ⟨c5_artist_sub_validation.1 5 1 ⟨"albumName", "albumUrl2", some "albumImageUrl", none⟩
      wStore (by decide),
   c5_artist_sub_validation.2.1 5 1 ⟨"songName", "songUrl2", some ⟨"artist", "", none⟩⟩
      wStore (by decide)⟩

theorem hasJoin_eq_false_of_no_user {u : Nat} {rows : List JoinRow}
    (h : ∀ j ∈ rows, j.userId ≠ u) (cid : Nat) : hasJoin u cid rows = false := by
  unfold hasJoin
  rw [List.any_eq_false]
  intro j hj
  simp [h j hj]

theorem getArtists_spec (u : Nat) (s : Store) :
    List.Sorted artistLe (getArtists u s) ∧
    (∀ a, a ∈ getArtists u s ↔
      a ∈ s.artists ∧ hasJoin u a.id s.userArtists = true) ∧
    ((∀ j ∈ s.userArtists, j.userId ≠ u) → getArtists u s = []) := by
  refine ⟨List.sorted_insertionSort artistLe _, ?_, ?_⟩
  · intro a
    unfold getArtists
    rw [(List.perm_insertionSort artistLe _).mem_iff, List.mem_filter]
  · intro h
    unfold getArtists
    have hf : s.artists.filter (fun a => hasJoin u a.id s.userArtists) = [] := by
      rw [List.filter_eq_nil_iff]
      intro a _
      rw [hasJoin_eq_false_of_no_user h a.id]
      exact fun hc => nomatch hc
    rw [hf]
    rfl

theorem getAlbums_spec (u : Nat) (s : Store) :
    List.Sorted albumLe ((getAlbums u s).map Prod.fst) ∧
    (∀ x y, (x, y) ∈ getAlbums u s ↔
      x ∈ s.albums ∧ hasJoin u x.id s.userAlbums = true ∧
        y = findArtistById s x.artistId) ∧
    ((∀ j ∈ s.userAlbums, j.userId ≠ u) → getAlbums u s = []) := by
  have e : (getAlbums u s).map Prod.fst =
      List.insertionSort albumLe
        (s.albums.filter (fun b => hasJoin u b.id s.userAlbums)) := by
    unfold getAlbums
    rw [List.map_map]
    exact List.map_id _
  refine ⟨?_, ?_, ?_⟩
  · rw [e]
    exact List.sorted_insertionSort albumLe _
  · intro x y
    unfold getAlbums
    rw [List.mem_map]
    constructor
    · rintro ⟨b, hb, hxy⟩
      have hm := (List.perm_insertionSort albumLe _).mem_iff.mp hb
      have hmf := List.mem_filter.mp hm
      obtain ⟨rfl, rfl⟩ : b = x ∧ findArtistById s b.artistId = y := by
        constructor
        · exact congrArg Prod.fst hxy
        · exact congrArg Prod.snd hxy
      exact ⟨hmf.1, hmf.2, rfl⟩
    · rintro ⟨h1, h2, rfl⟩
      exact ⟨x, (List.perm_insertionSort albumLe _).mem_iff.mpr
        (List.mem_filter.mpr ⟨h1, h2⟩), rfl⟩
  · intro h
    unfold getAlbums
    have hf : s.albums.filter (fun b => hasJoin u b.id s.userAlbums) = [] := by
      rw [List.filter_eq_nil_iff]
      intro b _
      rw [hasJoin_eq_false_of_no_user h b.id]
      exact fun hc => nomatch hc
    rw [hf]
    rfl

theorem getSongs_spec (u : Nat) (s : Store) :
    List.Sorted songLe ((getSongs u s).map Prod.fst) ∧
    (∀ x y, (x, y) ∈ getSongs u s ↔
      x ∈ s.songs ∧ hasJoin u x.id s.userSongs = true ∧
        y = findArtistById s x.artistId) ∧
    ((∀ j ∈ s.userSongs, j.userId ≠ u) → getSongs u s = []) := by
  have e : (getSongs u s).map Prod.fst =
      List.insertionSort songLe
        (s.songs.filter (fun b => hasJoin u b.id s.userSongs)) := by
    unfold getSongs
    rw [List.map_map]
    exact List.map_id _
  refine ⟨?_, ?_, ?_⟩
  · rw [e]
    exact List.sorted_insertionSort songLe _
  · intro x y
    unfold getSongs
    rw [List.mem_map]
    constructor
    · rintro ⟨b, hb, hxy⟩
      have hm := (List.perm_insertionSort songLe _).mem_iff.mp hb
      have hmf := List.mem_filter.mp hm
      obtain ⟨rfl, rfl⟩ : b = x ∧ findArtistById s b.artistId = y := by
        constructor
        · exact congrArg Prod.fst hxy
        · exact congrArg Prod.snd hxy
      exact ⟨hmf.1, hmf.2, rfl⟩
    · rintro ⟨h1, h2, rfl⟩
      exact ⟨x, (List.perm_insertionSort songLe _).mem_iff.mpr
        (List.mem_filter.mpr ⟨h1, h2⟩), rfl⟩
  · intro h
    unfold getSongs
    have hf : s.songs.filter (fun b => hasJoin u b.id s.userSongs) = [] := by
      rw [List.filter_eq_nil_iff]
      intro b _
      rw [hasJoin_eq_false_of_no_user h b.id]
      exact fun hc => nomatch hc
    rw [hf]
    rfl

/-- C6: for every current user, the query workflow returns exactly the
catalog entities associated to that user via the join table, ordered by
catalog id ascending, with the nested artist attached for albums and
songs; a user without associations gets the empty list (the workflow is a
total function, never an error). -/
theorem c6_query_workflow :
    (∀ u (s : Store),
      List.Sorted artistLe (getArtists u s) ∧
      (∀ a, a ∈ getArtists u s ↔
        a ∈ s.artists ∧ hasJoin u a.id s.userArtists = true) ∧
      ((∀ j ∈ s.userArtists, j.userId ≠ u) → getArtists u s = [])) ∧
    (∀ u (s : Store),
      List.Sorted albumLe ((getAlbums u s).map Prod.fst) ∧
      (∀ x y, (x, y) ∈ getAlbums u s ↔
        x ∈ s.albums ∧ hasJoin u x.id s.userAlbums = true ∧
          y = findArtistById s x.artistId) ∧
      ((∀ j ∈ s.userAlbums, j.userId ≠ u) → getAlbums u s = [])) ∧
    (∀ u (s : Store),
      List.Sorted songLe ((getSongs u s).map Prod.fst) ∧
      (∀ x y, (x, y) ∈ getSongs u s ↔
        x ∈ s.songs ∧ hasJoin u x.id s.userSongs = true ∧
          y = findArtistById s x.artistId) ∧
      ((∀ j ∈ s.userSongs, j.userId ≠ u) → getSongs u s = [])) :=
  ⟨getArtists_spec, getAlbums_spec, getSongs_spec⟩

/-- C6 witness: on the fixture store, the queries of user 1 are sorted and
contain exactly the fixture entities with their nested artist, while user
2, who has no associations, gets empty lists. -/
theorem c6_query_workflow_witness :
    List.Sorted artistLe (getArtists 1 wStore) ∧
    (wArtist ∈ getArtists 1 wStore ↔
      wArtist ∈ wStore.artists ∧ hasJoin 1 wArtist.id wStore.userArtists = true) ∧
    getArtists 2 wStore = [] ∧
    ((wAlbum, findArtistById wStore wAlbum.artistId) ∈ getAlbums 1 wStore ↔
      wAlbum ∈ wStore.albums ∧ hasJoin 1 wAlbum.id wStore.userAlbums = true ∧
        findArtistById wStore wAlbum.artistId = findArtistById wStore wAlbum.artistId) ∧
    getAlbums 2 wStore = [] ∧
    getSongs 2 wStore = [] :=
  ⟨(c6_query_workflow.1 1 wStore).1,
   (c6_query_workflow.1 1 wStore).2.1 wArtist,
   (c6_query_workflow.1 2 wStore).2.2 (by decide),
   (c6_query_workflow.2.1 1 wStore).2.1 wAlbum (findArtistById wStore wAlbum.artistId),
   (c6_query_workflow.2.1 2 wStore).2.2 (by decide),
   (c6_query_workflow.2.2 2 wStore).2.2 (by decide)⟩

/-- C8: the quota check runs after the catalog find-or-create and before
the join-row creation: a submission rejected for quota leaves the user's
join rows of that kind unchanged, while the post-state catalog
nevertheless contains a row for the submitted URL (and, for albums and
songs, for the nested artist URL). -/
theorem c8_quota_after_catalog_upsert :
    (∀ m u (p : ArtistPayload) (s : Store), m ≤ countJoins u s.userArtists →
      (postArtist m u p s).1 = Except.error Fault.quota ∧
      (postArtist m u p s).2.userArtists = s.userArtists ∧
      ∃ a ∈ (postArtist m u p s).2.artists, a.url = p.url) ∧
    (∀ m u (p : AlbumPayload) (s : Store) (ap : ArtistPayload),
      p.artist = some ap → ap.url ≠ "" → m ≤ countJoins u s.userAlbums →
      (postAlbum m u p s).1 = Except.error Fault.quota ∧
      (postAlbum m u p s).2.userAlbums = s.userAlbums ∧
      (∃ b ∈ (postAlbum m u p s).2.albums, b.url = p.url) ∧
      (∃ a ∈ (postAlbum m u p s).2.artists, a.url = ap.url)) ∧
    (∀ m u (p : SongPayload) (s : Store) (ap : ArtistPayload),
      p.artist = some ap → ap.url ≠ "" → m ≤ countJoins u s.userSongs →
      (postSong m u p s).1 = Except.error Fault.quota ∧
      (postSong m u p s).2.userSongs = s.userSongs ∧
      (∃ b ∈ (postSong m u p s).2.songs, b.url = p.url) ∧
      (∃ a ∈ (postSong m u p s).2.artists, a.url = ap.url)) := by
  refine ⟨?_, ?_, ?_⟩
  · intro m u p s hc
    rcases hfoc : findOrCreateArtist s p with ⟨a, s1⟩
    have hfr := findOrCreateArtist_frame s p
    rw [hfoc] at hfr
    have hu : s1.userArtists = s.userArtists := hfr.2.2.1
    have hq := @associate_quota m u s1.userArtists a.id (by rw [hu]; exact hc)
    rw [postArtist_error hfoc hq]
    refine ⟨rfl, hu, ?_⟩
    have hmem := findOrCreateArtist_url_mem s p
    rw [hfoc] at hmem
    exact hmem
  · intro m u p s ap hart hurl hc
    rcases hfa : findOrCreateArtist s ap with ⟨ar, s1⟩
    have hfr1 := findOrCreateArtist_frame s ap
    rw [hfa] at hfr1
    rcases hfb : findOrCreateAlbum s1 ar.id p with ⟨al, s2⟩
    have hfr2 := findOrCreateAlbum_frame s1 ar.id p
    rw [hfb] at hfr2
    have hu : s2.userAlbums = s.userAlbums := by
      have h2 : s2.userAlbums = s1.userAlbums := hfr2.2.2.2.1
      have h1 : s1.userAlbums = s.userAlbums := hfr1.2.2.2.1
      rw [h2, h1]
    have hq := @associate_quota m u s2.userAlbums al.id (by rw [hu]; exact hc)
    rw [postAlbum_error hart hurl hfa hfb hq]
    refine ⟨rfl, hu, ?_, ?_⟩
    · have hm := findOrCreateAlbum_fst_mem s1 ar.id p
      rw [hfb] at hm
      exact ⟨al, hm.1, hm.2⟩
    · have hm := findOrCreateArtist_url_mem s ap
      rw [hfa] at hm
      have f1 : s2.artists = s1.artists := hfr2.1
      show ∃ a ∈ s2.artists, a.url = ap.url
      rw [f1]
      exact hm
  · intro m u p s ap hart hurl hc
    rcases hfa : findOrCreateArtist s ap with ⟨ar, s1⟩
    have hfr1 := findOrCreateArtist_frame s ap
    rw [hfa] at hfr1
    rcases hfb : findOrCreateSong s1 ar.id p with ⟨sg, s2⟩
    have hfr2 := findOrCreateSong_frame s1 ar.id p
    rw [hfb] at hfr2
    have hu : s2.userSongs = s.userSongs := by
      have h2 : s2.userSongs = s1.userSongs := hfr2.2.2.2.2
      have h1 : s1.userSongs = s.userSongs := hfr1.2.2.2.2
      rw [h2, h1]
    have hq := @associate_quota m u s2.userSongs sg.id (by rw [hu]; exact hc)
    rw [postSong_error hart hurl hfa hfb hq]
    refine ⟨rfl, hu, ?_, ?_⟩
    · have hm := findOrCreateSong_fst_mem s1 ar.id p
      rw [hfb] at hm
      exact ⟨sg, hm.1, hm.2⟩
    · have hm := findOrCreateArtist_url_mem s ap
      rw [hfa] at hm
      have f1 : s2.artists = s1.artists := hfr2.1
      show ∃ a ∈ s2.artists, a.url = ap.url
      rw [f1]
      exact hm

/-- C8 witness: a quota-saturated user (ceiling 1) posting fresh URLs is
rejected with the quota fault, gains no join row, yet the fresh catalog
rows exist in the post-state. -/
theorem c8_quota_after_catalog_upsert_witness :
    ((postArtist 1 1 ⟨"n2", "artistUrl2", none⟩ wStore).1 = Except.error Fault.quota ∧
      (postArtist 1 1 ⟨"n2", "artistUrl2", none⟩ wStore).2.userArtists = wStore.userArtists ∧
      ∃ a ∈ (postArtist 1 1 ⟨"n2", "artistUrl2", none⟩ wStore).2.artists,
        a.url = "artistUrl2") ∧
    ((postAlbum 1 1 ⟨"a2", "albumUrl2", none, some ⟨"n2", "artistUrl2", none⟩⟩ wStore).1 =
        Except.error Fault.quota ∧
      (postAlbum 1 1 ⟨"a2", "albumUrl2", none, some ⟨"n2", "artistUrl2", none⟩⟩
          wStore).2.userAlbums = wStore.userAlbums ∧
      (∃ b ∈ (postAlbum 1 1 ⟨"a2", "albumUrl2", none, some ⟨"n2", "artistUrl2", none⟩⟩
          wStore).2.albums, b.url = "albumUrl2") ∧
      (∃ a ∈ (postAlbum 1 1 ⟨"a2", "albumUrl2", none, some ⟨"n2", "artistUrl2", none⟩⟩
          wStore).2.artists, a.url = "artistUrl2")) :=
  ⟨c8_quota_after_catalog_upsert.1 1 1 ⟨"n2", "artistUrl2", none⟩ wStore (by decide),
   c8_quota_after_catalog_upsert.2.1 1 1
      ⟨"a2", "albumUrl2", none, some ⟨"n2", "artistUrl2", none⟩⟩ wStore
      ⟨"n2", "artistUrl2", none⟩ rfl (by decide) (by decide)⟩

/-- C9: disassociating an associated catalog entry and then re-submitting
the same URL for the same user succeeds, reuses the very same catalog row
(the catalog table of that kind is unchanged by the round trip), and
leaves exactly one join row for the (user, catalog-entry) pair. -/
theorem c9_delete_then_repost_roundtrip :
    (∀ m u (p : ArtistPayload) (s : Store) (a : Artist),
      a ∈ s.artists → a.url = p.url →
      (s.artists.map Artist.url).Nodup →
      hasJoin u a.id s.userArtists = true →
      countJoins u s.userArtists ≤ m →
      (deleteArtistAssoc u a.id s).1 = Except.ok () ∧
      (postArtist m u p (deleteArtistAssoc u a.id s).2).1 = Except.ok a ∧
      (postArtist m u p (deleteArtistAssoc u a.id s).2).2.artists = s.artists ∧
      countPair u a.id
        (postArtist m u p (deleteArtistAssoc u a.id s).2).2.userArtists = 1) ∧
    (∀ m u (p : AlbumPayload) (s : Store) (ap : ArtistPayload) (b : Album),
      p.artist = some ap → ap.url ≠ "" →
      b ∈ s.albums → b.url = p.url →
      (s.albums.map Album.url).Nodup →
      hasJoin u b.id s.userAlbums = true →
      countJoins u s.userAlbums ≤ m →
      (deleteAlbumAssoc u b.id s).1 = Except.ok () ∧
      (∃ na, (postAlbum m u p (deleteAlbumAssoc u b.id s).2).1 = Except.ok (b, na)) ∧
      (postAlbum m u p (deleteAlbumAssoc u b.id s).2).2.albums = s.albums ∧
      countPair u b.id
        (postAlbum m u p (deleteAlbumAssoc u b.id s).2).2.userAlbums = 1) ∧
    (∀ m u (p : SongPayload) (s : Store) (ap : ArtistPayload) (b : Song),
      p.artist = some ap → ap.url ≠ "" →
      b ∈ s.songs → b.url = p.url →
      (s.songs.map Song.url).Nodup →
      hasJoin u b.id s.userSongs = true →
      countJoins u s.userSongs ≤ m →
      (deleteSongAssoc u b.id s).1 = Except.ok () ∧
      (∃ na, (postSong m u p (deleteSongAssoc u b.id s).2).1 = Except.ok (b, na)) ∧
      (postSong m u p (deleteSongAssoc u b.id s).2).2.songs = s.songs ∧
      countPair u b.id
        (postSong m u p (deleteSongAssoc u b.id s).2).2.userSongs = 1) := by
  refine ⟨?_, ?_, ?_⟩
  · intro m u p s a ha hurl hnd hj hcnt
    have hd := deleteAssoc_pos hj
    have e1 : (deleteArtistAssoc u a.id s).1 = Except.ok () := by
      show (deleteAssoc u a.id s.userArtists).1 = Except.ok ()
      rw [hd]
    have e2 : (deleteArtistAssoc u a.id s).2 =
        { s with userArtists := s.userArtists.filter (fun j => !(j.userId == u && j.targetId == a.id)) } := by
      show ({ s with userArtists := (deleteAssoc u a.id s.userArtists).2 } : Store) = _
      rw [hd]
    rw [e2]
    have hfoc : findOrCreateArtist
        ({ s with userArtists := s.userArtists.filter (fun j => !(j.userId == u && j.targetId == a.id)) } : Store) p =
        (a, { s with userArtists := s.userArtists.filter (fun j => !(j.userId == u && j.targetId == a.id)) }) :=
      findOrCreateArtist_exact hnd ha hurl
    have hcq : countJoins u (s.userArtists.filter
        (fun j => !(j.userId == u && j.targetId == a.id))) < m :=
      lt_of_lt_of_le (countJoins_filter_pair_lt hj) hcnt
    have hnj := hasJoin_filter_out u a.id s.userArtists
    have hassoc := associate_ok hcq hnj
    have hpost := postArtist_ok hfoc hassoc
    rw [hpost]
    refine ⟨e1, rfl, rfl, ?_⟩
    show countPair u a.id (s.userArtists.filter
        (fun j => !(j.userId == u && j.targetId == a.id)) ++ [⟨u, a.id⟩]) = 1
    rw [countPair_append_pair, countPair_filter_out]
  · intro m u p s ap b hart hurl hb hburl hnd hj hcnt
    have hd := deleteAssoc_pos hj
    have e1 : (deleteAlbumAssoc u b.id s).1 = Except.ok () := by
      show (deleteAssoc u b.id s.userAlbums).1 = Except.ok ()
      rw [hd]
    have e2 : (deleteAlbumAssoc u b.id s).2 =
        { s with userAlbums := s.userAlbums.filter (fun j => !(j.userId == u && j.targetId == b.id)) } := by
      show ({ s with userAlbums := (deleteAssoc u b.id s.userAlbums).2 } : Store) = _
      rw [hd]
    rw [e2]
    rcases hfa : findOrCreateArtist
        ({ s with userAlbums := s.userAlbums.filter (fun j => !(j.userId == u && j.targetId == b.id)) } : Store) ap with ⟨ar, s1⟩
    have hfr1 := findOrCreateArtist_frame
        ({ s with userAlbums := s.userAlbums.filter (fun j => !(j.userId == u && j.targetId == b.id)) } : Store) ap
    rw [hfa] at hfr1
    have f1 : s1.albums = s.albums := hfr1.1
    have f2 : s1.userAlbums = s.userAlbums.filter
        (fun j => !(j.userId == u && j.targetId == b.id)) := hfr1.2.2.2.1
    have hnd1 : (s1.albums.map Album.url).Nodup := by rw [f1]; exact hnd
    have hb1 : b ∈ s1.albums := by rw [f1]; exact hb
    have hfb := @findOrCreateAlbum_exact s1 ar.id p b hnd1 hb1 hburl
    have hcq : countJoins u s1.userAlbums < m := by
      rw [f2]
      exact lt_of_lt_of_le (countJoins_filter_pair_lt hj) hcnt
    have hnj : hasJoin u b.id s1.userAlbums = false := by
      rw [f2]
      exact hasJoin_filter_out u b.id s.userAlbums
    have hassoc := associate_ok hcq hnj
    have hpost := postAlbum_ok hart hurl hfa hfb hassoc
    rw [hpost]
    refine ⟨e1, ⟨findArtistById s1 b.artistId, rfl⟩, ?_, ?_⟩
    · show s1.albums = s.albums
      exact f1
    · show countPair u b.id (s1.userAlbums ++ [⟨u, b.id⟩]) = 1
      rw [f2, countPair_append_pair, countPair_filter_out]
  · intro m u p s ap b hart hurl hb hburl hnd hj hcnt
    have hd := deleteAssoc_pos hj
    have e1 : (deleteSongAssoc u b.id s).1 = Except.ok () := by
      show (deleteAssoc u b.id s.userSongs).1 = Except.ok ()
      rw [hd]
    have e2 : (deleteSongAssoc u b.id s).2 =
        { s with userSongs := s.userSongs.filter (fun j => !(j.userId == u && j.targetId == b.id)) } := by
      show ({ s with userSongs := (deleteAssoc u b.id s.userSongs).2 } : Store) = _
      rw [hd]
    rw [e2]
    rcases hfa : findOrCreateArtist
        ({ s with userSongs := s.userSongs.filter (fun j => !(j.userId == u && j.targetId == b.id)) } : Store) ap with ⟨ar, s1⟩
    have hfr1 := findOrCreateArtist_frame
        ({ s with userSongs := s.userSongs.filter (fun j => !(j.userId == u && j.targetId == b.id)) } : Store) ap
    rw [hfa] at hfr1
    have f1 : s1.songs = s.songs := hfr1.2.1
    have f2 : s1.userSongs = s.userSongs.filter
        (fun j => !(j.userId == u && j.targetId == b.id)) := hfr1.2.2.2.2
    have hnd1 : (s1.songs.map Song.url).Nodup := by rw [f1]; exact hnd
    have hb1 : b ∈ s1.songs := by rw [f1]; exact hb
    have hfb := @findOrCreateSong_exact s1 ar.id p b hnd1 hb1 hburl
    have hcq : countJoins u s1.userSongs < m := by
      rw [f2]
      exact lt_of_lt_of_le (countJoins_filter_pair_lt hj) hcnt
    have hnj : hasJoin u b.id s1.userSongs = false := by
      rw [f2]
      exact hasJoin_filter_out u b.id s.userSongs
    have hassoc := associate_ok hcq hnj
    have hpost := postSong_ok hart hurl hfa hfb hassoc
    rw [hpost]
    refine ⟨e1, ⟨findArtistById s1 b.artistId, rfl⟩, ?_, ?_⟩
    · show s1.songs = s.songs
      exact f1
    · show countPair u b.id (s1.userSongs ++ [⟨u, b.id⟩]) = 1
      rw [f2, countPair_append_pair, countPair_filter_out]

/-- C9 witness: on the fixture store with ceiling 1, deleting each fixture
association and re-posting the same URL reuses the same catalog row and
restores exactly one join row for the pair. -/
theorem c9_delete_then_repost_roundtrip_witness :
    ((deleteArtistAssoc 1 1 wStore).1 = Except.ok () ∧
      (postArtist 1 1 wArtistP (deleteArtistAssoc 1 1 wStore).2).1 = Except.ok wArtist ∧
      (postArtist 1 1 wArtistP (deleteArtistAssoc 1 1 wStore).2).2.artists =
        wStore.artists ∧
      countPair 1 1
        (postArtist 1 1 wArtistP (deleteArtistAssoc 1 1 wStore).2).2.userArtists = 1) ∧
    ((deleteAlbumAssoc 1 1 wStore).1 = Except.ok () ∧
      (∃ na, (postAlbum 1 1 wAlbumP (deleteAlbumAssoc 1 1 wStore).2).1 =
        Except.ok (wAlbum, na)) ∧
      (postAlbum 1 1 wAlbumP (deleteAlbumAssoc 1 1 wStore).2).2.albums =
        wStore.albums ∧
      countPair 1 1
        (postAlbum 1 1 wAlbumP (deleteAlbumAssoc 1 1 wStore).2).2.userAlbums = 1) :=
  ⟨c9_delete_then_repost_roundtrip.1 1 1 wArtistP wStore wArtist
      (by decide) (by decide) (by decide) (by decide) (by decide),
   c9_delete_then_repost_roundtrip.2.1 1 1 wAlbumP wStore wArtistP wAlbum
      rfl (by decide) (by decide) (by decide) (by decide) (by decide) (by decide)⟩

/-- C10: every query of hotel rooms through the HotelRoom default scope
returns the rows ordered by id ascending, and they are exactly the
queried rows. -/
theorem c10_hotel_room_default_scope_sorted (rows : List HotelRoom) :
    List.Sorted hotelRoomLe (hotelRoomDefaultScope rows) ∧
    List.Perm (hotelRoomDefaultScope rows) rows :=
  ⟨List.sorted_insertionSort hotelRoomLe rows,
   List.perm_insertionSort hotelRoomLe rows⟩

end Maple
